import Mathlib

/-!
Verification development for the CoinGecko live-dashboard script
(`CoinGecko.py`).  The script is a single Streamlit page that pings the
CoinGecko API, fetches a market snapshot for a user-chosen list of coin
ids, projects and renames 14 columns for display, formats numbers for a
styled table, renders one metric card per coin and one price chart per
coin, and then sleeps and reruns.

Shallow embedding conventions:
* Numeric JSON values are modelled as rationals (`ℚ`); a missing/NaN
  value is `Option.none` (matching `pd.isna` / `pd.notna`).
* The network is an oracle: each HTTP interaction is summarised by the
  outcome the script can distinguish (request exception, error status
  that makes `raise_for_status` raise, malformed body, or a parsed
  payload).
* `st.stop()` ends the script run; this is modelled by the early-return
  structure of `runCycle`.
* `pd.to_datetime(ms, unit="ms")` is an injective, order-preserving
  conversion; the resulting datetime is modelled by the epoch-millis
  instant itself.
-/

namespace CoinGecko

/-- One row of the `/coins/markets` response (an `AssetQuote`), with the
fields the script reads.  The three percentage-change fields and the
fully-diluted valuation may be missing (`null` in the JSON, NaN in the
DataFrame), hence `Option ℚ`. -/
structure AssetQuote where
  symbol : String
  name : String
  current_price : ℚ
  price_change_percentage_1h_in_currency : Option ℚ
  price_change_percentage_24h_in_currency : Option ℚ
  price_change_percentage_7d_in_currency : Option ℚ
  high_24h : ℚ
  low_24h : ℚ
  ath : ℚ
  market_cap : ℚ
  total_volume : ℚ
  market_cap_rank : Nat
  fully_diluted_valuation : Option ℚ
  last_updated : String
deriving DecidableEq

/-- One `[timestamp, price]` sample of a coin's historical series.
`timestamp` is the `pd.to_datetime` image of `timestamp_ms`, modelled as
the same epoch-millis instant. -/
structure PricePoint where
  timestamp_ms : Int
  price : ℚ
  timestamp : Int
deriving DecidableEq

/-- Outcome of the GET in `ping_api`: a request exception, an error
status (so `raise_for_status` raises), or a 2xx response; `elapsed` is
the measured latency `time.time() - start`. -/
inductive PingResult where
  | netError
  | httpError
  | ok (elapsed : ℚ)
deriving DecidableEq

/-- `ping_api`: returns the elapsed seconds on success and the sentinel
`-1` when `requests.get` or `raise_for_status` raises
(`except requests.RequestException: return -1`). -/
def ping_api (res : PingResult) : ℚ :=
  match res with
  | .ok elapsed => elapsed
  | .netError => -1
  | .httpError => -1

/-- Outcome of the GET in `fetch_market_data`: a request exception
(timeout / connection error), an error status, a body `r.json()` cannot
parse, or a parsed snapshot array. -/
inductive MarketResult where
  | netError
  | httpError
  | badJson
  | ok (rows : List AssetQuote)

/-- `fetch_market_data`: no try/except, so every failure propagates to
the caller (`Except.error`); a 2xx response with a parsable body yields
`pd.DataFrame(r.json())`, one row per returned asset. -/
def fetch_market_data (res : MarketResult) : Except Unit (List AssetQuote) :=
  match res with
  | .netError => .error ()
  | .httpError => .error ()
  | .badJson => .error ()
  | .ok rows => .ok rows

/-- Outcome of the GET in `fetch_market_chart`: request exception, error
status, malformed JSON body, a JSON object without a `"prices"` key
(`.get("prices", [])` then yields `[]`), a `"prices"` value that is not
a list of pairs (the `pd.DataFrame(prices, columns=[...])` constructor
raises), or a well-formed list of `[epoch-millis, price]` pairs. -/
inductive ChartResult where
  | netError
  | httpError
  | badJson
  | missingPrices
  | badPrices
  | ok (prices : List (Int × ℚ))

/-- The body of the `try:` block in `fetch_market_chart`: any raise is
`Except.error ()`; otherwise the DataFrame built from the pairs, with
the derived `timestamp` column appended, in the order received. -/
def fetch_market_chart_body (res : ChartResult) : Except Unit (List PricePoint) :=
  match res with
  | .netError => .error ()
  | .httpError => .error ()
  | .badJson => .error ()
  | .badPrices => .error ()
  | .missingPrices => .ok []
  | .ok prices => .ok (prices.map fun p => ⟨p.1, p.2, p.1⟩)

/-- `fetch_market_chart`: the `except Exception:` clause turns every
raise into the empty DataFrame, so the function is total and returns an
empty series on any failure. -/
def fetch_market_chart (res : ChartResult) : List PricePoint :=
  match fetch_market_chart_body res with
  | .ok points => points
  | .error _ => []

/-- `color_delta`: `""` when `pd.isna(val)`, otherwise
`f"color: {green-or-red}; font-weight: bold;"` with green exactly when
`val > 0`. -/
def color_delta (val : Option ℚ) : String :=
  match val with
  | none => ""
  | some v =>
    let color := if v > 0 then "green" else "red"
    "color: " ++ color ++ "; font-weight: bold;"

/-- The style string the positive branch of `color_delta` produces. -/
def greenStyle : String := "color: green; font-weight: bold;"

/-- The style string the non-positive branch of `color_delta` produces. -/
def redStyle : String := "color: red; font-weight: bold;"

/-! ## Numeric display formatting

The styled table formats cells with Python format specs: `"{:,.4f}"`
for prices/highs/lows/ATH, `"{:.2f}"` for the percentage columns and
`"{:,.0f}"` for market cap / volume / FDV.  `formatFixed sep d` models
such a spec: round to `d` decimal digits (ties to even, as Python's
fixed-point formatting does on exactly representable values), render
the integer part with thousands separators when `sep` is true, and pad
the fractional part to exactly `d` digits. -/

/-- Round `v * 10 ^ p` to the nearest integer, ties to even, computed
on the numerator/denominator of the rational. -/
def roundScaledHalfEven (v : ℚ) (p : Nat) : Int :=
  let n : Int := v.num * ((10 ^ p : Nat) : Int)
  let d : Int := (v.den : Int)
  let q0 := Int.fdiv n d
  let r := Int.fmod n d
  if 2 * r < d then q0
  else if d < 2 * r then q0 + 1
  else if q0 % 2 = 0 then q0 else q0 + 1

/-- Insert a `','` before every third digit of a digit list given in
reversed (least-significant-first) order; `n` is the index of the next
character. -/
def sepRev (cs : List Char) (n : Nat) : List Char :=
  match cs with
  | [] => []
  | c :: rest =>
    (if n ≠ 0 ∧ n % 3 = 0 then [',', c] else [c]) ++ sepRev rest (n + 1)

/-- Decimal rendering of a natural number with thousands separators
(`"{:,}"`-style grouping). -/
def withThousands (n : Nat) : String :=
  String.mk (sepRev (Nat.repr n).data.reverse 0).reverse

/-- Left-pad a string with `'0'` to length `d`. -/
def padZeros (d : Nat) (s : String) : String :=
  if s.length < d then String.mk (List.replicate (d - s.length) '0') ++ s else s

/-- Fixed-point rendering of a rational: the Python format spec
`"{:,.df}"` when `sep` is true and `"{:.df}"` otherwise (no decimal
point when `d = 0`). -/
def formatFixed (sep : Bool) (d : Nat) (v : ℚ) : String :=
  let n := roundScaledHalfEven v d
  let m := n.natAbs
  let ip := m / 10 ^ d
  let fp := m % 10 ^ d
  let ipStr := if sep then withThousands ip else Nat.repr ip
  let sign := if n < 0 then "-" else ""
  if d = 0 then sign ++ ipStr
  else sign ++ ipStr ++ "." ++ padZeros d (Nat.repr fp)

/-! ## Column projection, renaming and the styled table -/

/-- The 14 source columns selected into `df_display`
(`columns_display` in the script). -/
def columns_display : List String :=
  [ "symbol", "name", "current_price",
    "price_change_percentage_1h_in_currency",
    "price_change_percentage_24h_in_currency",
    "price_change_percentage_7d_in_currency",
    "high_24h", "low_24h", "ath",
    "market_cap", "total_volume",
    "market_cap_rank", "fully_diluted_valuation",
    "last_updated" ]

/-- Python's `str.upper()` on the character list (the uppercase map,
written out so it evaluates in the kernel). -/
def strUpper (s : String) : String := String.mk (s.data.map Char.toUpper)

/-- The display label of the price column:
`f"Price ({vs_currency.upper()})"`. -/
def priceLabel (vs : String) : String := "Price (" ++ strUpper vs ++ ")"

/-- The `df_display.rename(columns={...})` mapping; columns outside the
dictionary keep their name. -/
def renameColumn (vs : String) (c : String) : String :=
  match c with
  | "symbol" => "Symbol"
  | "name" => "Coin"
  | "current_price" => priceLabel vs
  | "price_change_percentage_1h_in_currency" => "1H %"
  | "price_change_percentage_24h_in_currency" => "24H %"
  | "price_change_percentage_7d_in_currency" => "7D %"
  | "high_24h" => "24H High"
  | "low_24h" => "24H Low"
  | "ath" => "All Time High"
  | "market_cap" => "Market Cap"
  | "total_volume" => "Volume 24H"
  | "market_cap_rank" => "Rank"
  | "fully_diluted_valuation" => "FDV"
  | "last_updated" => "Last Update"
  | other => other

/-- A DataFrame cell as the Styler sees it: a string, a number, or a
missing value (NaN). -/
inductive Cell where
  | str (s : String)
  | num (v : ℚ)
  | nan
deriving DecidableEq

/-- Read one selected column out of an `AssetQuote` row; a missing
optional field is the NaN cell. -/
def quoteField (q : AssetQuote) (c : String) : Cell :=
  match c with
  | "symbol" => .str q.symbol
  | "name" => .str q.name
  | "current_price" => .num q.current_price
  | "price_change_percentage_1h_in_currency" =>
    (q.price_change_percentage_1h_in_currency).elim Cell.nan Cell.num
  | "price_change_percentage_24h_in_currency" =>
    (q.price_change_percentage_24h_in_currency).elim Cell.nan Cell.num
  | "price_change_percentage_7d_in_currency" =>
    (q.price_change_percentage_7d_in_currency).elim Cell.nan Cell.num
  | "high_24h" => .num q.high_24h
  | "low_24h" => .num q.low_24h
  | "ath" => .num q.ath
  | "market_cap" => .num q.market_cap
  | "total_volume" => .num q.total_volume
  | "market_cap_rank" => .num (q.market_cap_rank : ℚ)
  | "fully_diluted_valuation" =>
    (q.fully_diluted_valuation).elim Cell.nan Cell.num
  | "last_updated" => .str q.last_updated
  | _ => .nan

/-- The `df_display.style.format({...})` dictionary, keyed by display
label: `some (sep, decimals)` is the spec `"{:,.decimalsf}"` (with
separator when `sep`); `none` means the column has no formatter. -/
def format_dict (vs : String) (label : String) : Option (Bool × Nat) :=
  if label = priceLabel vs then some (true, 4)
  else if label = "1H %" then some (false, 2)
  else if label = "24H %" then some (false, 2)
  else if label = "7D %" then some (false, 2)
  else if label = "24H High" then some (true, 4)
  else if label = "24H Low" then some (true, 4)
  else if label = "All Time High" then some (true, 4)
  else if label = "Market Cap" then some (true, 0)
  else if label = "Volume 24H" then some (true, 0)
  else if label = "FDV" then some (true, 0)
  else none

/-- Styler rendering of one cell.  With a format spec, the spec is
applied to the value — including to NaN, which Python's float
formatting renders as the literal string `"nan"` (`Styler.format` has
no `na_rep` here).  Without a spec the default `str(value)` rendering
is used. -/
def renderCell (spec : Option (Bool × Nat)) (c : Cell) : String :=
  match spec, c with
  | none, .str s => s
  | none, .num v => toString v
  | none, .nan => "nan"
  | some _, .str s => s
  | some (sep, d), .num v => formatFixed sep d v
  | some _, .nan => "nan"

/-- The rendered text of one display cell of `df_display` for source
column `c`. -/
def displayCell (vs : String) (q : AssetQuote) (c : String) : String :=
  renderCell (format_dict vs (renameColumn vs c)) (quoteField q c)

/-- The styled detail table: renamed headers and one row of rendered
cells per asset, both following `columns_display` order. -/
structure DisplayTable where
  headers : List String
  rows : List (List String)
deriving DecidableEq

/-- Build the `st.dataframe(df_display.style.format(...))` table from
the snapshot rows. -/
def buildTable (vs : String) (rows : List AssetQuote) : DisplayTable :=
  { headers := columns_display.map (renameColumn vs)
    rows := rows.map fun q => columns_display.map (displayCell vs q) }

/-- The currency choices offered by the sidebar `st.selectbox`. -/
def currencies : List String := ["usd", "idr", "eur", "btc"]

/-! ## Summary metric cards -/

/-- One `st.metric` card.  The value is displayed with the f-string
`f"{price:,} {currency}"`; the raw price and the uppercased currency
are kept here (the `"{:,}"` float repr itself is presentation only).
The delta is `f"{delta_24h:.2f}%"` when the 24h change is present and
the em-dash `"—"` when it is NaN. -/
structure Card where
  label : String
  value_price : ℚ
  value_currency : String
  delta : String
deriving DecidableEq

/-- Build one summary card from an `AssetQuote` row. -/
def mkCard (vs : String) (q : AssetQuote) : Card :=
  { label := q.name ++ " (" ++ strUpper q.symbol ++ ")"
    value_price := q.current_price
    value_currency := strUpper vs
    delta :=
      match q.price_change_percentage_24h_in_currency with
      | some d => formatFixed false 2 d ++ "%"
      | none => "—" }

/-! ## The render cycle -/

/-- One panel of the chart section: either the per-coin warning
(`st.warning(f"Tidak ada data grafik untuk {coin}.")` + `continue`) or
a rendered line chart over the fetched series. -/
inductive ChartPanel where
  | warning (coin : String)
  | chart (coin : String) (data : List PricePoint)
deriving DecidableEq

/-- The network's behaviour during one cycle: outcomes of the ping, of
the market-snapshot request, and of each coin's chart request. -/
structure NetworkOracle where
  ping : PingResult
  market : MarketResult
  chart : String → ChartResult

/-- The sidebar configuration read at the start of a cycle. -/
structure RefreshConfig where
  coins : List String
  vs_currency : String
  show_chart : Bool
  chart_days : Nat

/-- Everything one cycle renders after the status banner: the fatal
error message (quote-fetch failure), the empty-result warning, the
metric cards, the styled table, and the chart section. -/
structure RenderOutput where
  apiOk : Bool
  errorMsg : Option String
  warningMsg : Option String
  cards : List Card
  table : Option DisplayTable
  chartSection : List ChartPanel
deriving DecidableEq

/-- The chart panel the loop body produces for one coin: warning when
`data.empty`, otherwise the plotted chart. -/
def chartPanelFor (coin : String) (res : ChartResult) : ChartPanel :=
  let data := fetch_market_chart res
  if data.isEmpty then .warning coin else .chart coin data

/-- The `for coin in coins:` chart loop (one panel per coin, in input
order). -/
def chartLoop (cfg : RefreshConfig) (net : NetworkOracle) : List ChartPanel :=
  cfg.coins.map fun coin => chartPanelFor coin (net.chart coin)

/-- One render cycle of the script, from the ping banner to the chart
section.  A quote-fetch failure is caught, shown with `st.error`, and
`st.stop()` ends the run before any card/table/chart; an empty
snapshot is shown with `st.warning` and likewise stops the run;
otherwise cards, table and (when the toggle is on) charts are
rendered. -/
def runCycle (cfg : RefreshConfig) (net : NetworkOracle) : RenderOutput :=
  let apiOk := !(decide (ping_api net.ping < 0))
  match fetch_market_data net.market with
  | .error _ =>
    { apiOk := apiOk
      errorMsg := some "Gagal mengambil data dari API"
      warningMsg := none
      cards := []
      table := none
      chartSection := [] }
  | .ok rows =>
    if rows.isEmpty then
      { apiOk := apiOk
        errorMsg := none
        warningMsg := some "Tidak ada data ditemukan. Periksa ID coin dan koneksi internet."
        cards := []
        table := none
        chartSection := [] }
    else
      { apiOk := apiOk
        errorMsg := none
        warningMsg := none
        cards := rows.map (mkCard cfg.vs_currency)
        table := some (buildTable cfg.vs_currency rows)
        chartSection := if cfg.show_chart then chartLoop cfg net else [] }

/-! ## The `st.cache_data` memoization layer

Modelled from the documented behaviour of the `st.cache_data`
decorator: each decorated function owns a cache keyed by the full
argument tuple; a lookup within `ttl` seconds of the stored entry
returns the stored value without running the function (no network
request), and an expired or absent entry reruns the function and
stores the fresh result. -/

/-- One cache entry: key, wall-clock store time (seconds) and stored
value. -/
structure CacheEntry (κ α : Type) where
  key : κ
  storedAt : Nat
  value : α

/-- The cache of one decorated function. -/
structure CacheState (κ α : Type) where
  entries : List (CacheEntry κ α)

/-- Most recent entry for a key, if any. -/
def lookupEntry {κ α : Type} [DecidableEq κ] (st : CacheState κ α) (k : κ) :
    Option (Nat × α) :=
  match st.entries.find? (fun e => decide (e.key = k)) with
  | some e => some (e.storedAt, e.value)
  | none => none

/-- Result of one call through the cache: the value, the new cache
state, and whether the underlying function ran (i.e. whether a network
request was issued). -/
structure CallResult (κ α : Type) where
  value : α
  state : CacheState κ α
  networkCalled : Bool

/-- One call through a `st.cache_data(ttl := t)`-decorated function
`f`, at wall-clock second `now`, with argument tuple `k`. -/
def cachedCall {κ α : Type} [DecidableEq κ] (ttl : Nat) (f : κ → α)
    (now : Nat) (k : κ) (st : CacheState κ α) : CallResult κ α :=
  match lookupEntry st k with
  | some (t, v) =>
    if now - t < ttl then ⟨v, st, false⟩
    else ⟨f k, ⟨⟨k, now, f k⟩ :: st.entries⟩, true⟩
  | none => ⟨f k, ⟨⟨k, now, f k⟩ :: st.entries⟩, true⟩

/-- TTL of `@st.cache_data(ttl=60)` on `ping_api`. -/
def ping_api_ttl : Nat := 60

/-- TTL of `@st.cache_data(ttl=30)` on `fetch_market_data`. -/
def fetch_market_data_ttl : Nat := 30

/-- TTL of `@st.cache_data(ttl=120)` on `fetch_market_chart`. -/
def fetch_market_chart_ttl : Nat := 120

/-- The full argument tuple of `fetch_market_data`:
`(vs_currency, coins)`. -/
abbrev QuotesKey := String × List String

/-- `fetch_market_data` as called through its `st.cache_data` wrapper:
`net` gives the network outcome for each argument tuple. -/
def fetch_quotes_cached (net : QuotesKey → MarketResult) (now : Nat)
    (k : QuotesKey) (st : CacheState QuotesKey (Except Unit (List AssetQuote))) :
    CallResult QuotesKey (Except Unit (List AssetQuote)) :=
  cachedCall fetch_market_data_ttl (fun key => fetch_market_data (net key)) now k st

/-! ## Claims -/

/-- C1: for every asset id, currency and days value, `fetch_history`
(`fetch_market_chart`) never raises: on any failure — network error,
timeout, non-2xx status, or malformed payload — it returns an empty
sequence of `PricePoint`s instead of propagating the exception.  (The
Lean embedding is total, so "never raises" is the fact that every
failing outcome of the request body is mapped to `[]`.) -/
theorem fetch_history_failure_returns_empty :
    fetch_market_chart ChartResult.netError = [] ∧
    fetch_market_chart ChartResult.httpError = [] ∧
    fetch_market_chart ChartResult.badJson = [] ∧
    fetch_market_chart ChartResult.badPrices = [] ∧
    ∀ res : ChartResult, fetch_market_chart_body res = .error () →
      fetch_market_chart res = [] := by
  refine ⟨rfl, rfl, rfl, rfl, ?_⟩
  intro res h
  simp [fetch_market_chart, h]

/-- Witness for C1 at the network-error outcome. -/
theorem fetch_history_failure_returns_empty_witness :
    fetch_market_chart ChartResult.netError = [] :=
  fetch_history_failure_returns_empty.2.2.2.2 ChartResult.netError rfl

/-- C2: the delta-coloring classifier maps `value > 0` to the green
class, `value < 0` to the red class, null/NaN to the neutral
no-styling class, and exactly `0` to the red class via a
strictly-greater-than-zero test — the three classes being pairwise
distinct strings, no input lands in two classes. -/
theorem color_delta_classification :
    color_delta none = "" ∧
    (∀ v : ℚ, 0 < v → color_delta (some v) = greenStyle) ∧
    (∀ v : ℚ, v < 0 → color_delta (some v) = redStyle) ∧
    color_delta (some 0) = redStyle ∧
    greenStyle ≠ redStyle ∧ greenStyle ≠ "" ∧ redStyle ≠ "" := by
  refine ⟨rfl, ?_, ?_, by decide, by decide, by decide, by decide⟩
  · intro v hv
    simp [color_delta, hv, greenStyle]
  · intro v hv
    simp [color_delta, redStyle, not_lt.mpr (le_of_lt hv)]

/-- Witness for C2 at 5.2, -3.1, NaN and 0. -/
theorem color_delta_classification_witness :
    color_delta (some (mkRat 26 5)) = greenStyle ∧
    color_delta (some (mkRat (-31) 10)) = redStyle ∧
    color_delta none = "" ∧
    color_delta (some 0) = redStyle :=
  ⟨color_delta_classification.2.1 _ (by decide),
   color_delta_classification.2.2.1 _ (by decide),
   color_delta_classification.1,
   color_delta_classification.2.2.2.1⟩

/-- C9: a successfully fetched historical series preserves the order
of the API's `[epoch-millis, price]` pairs exactly: the returned
sequence is the pairs in the order received, projecting the points
back yields the original list, and no element is inserted or
dropped. -/
theorem fetch_history_preserves_order (ps : List (Int × ℚ)) :
    fetch_market_chart (ChartResult.ok ps) =
      ps.map (fun p => ⟨p.1, p.2, p.1⟩) ∧
    (fetch_market_chart (ChartResult.ok ps)).map
      (fun pt => (pt.timestamp_ms, pt.price)) = ps ∧
    (fetch_market_chart (ChartResult.ok ps)).length = ps.length := by
  refine ⟨rfl, ?_, ?_⟩
  · simp [fetch_market_chart, fetch_market_chart_body, List.map_map,
      Function.comp_def]
  · simp [fetch_market_chart, fetch_market_chart_body]

/-- C4: `fetch_quotes` (`fetch_market_data`) raises on timeout,
network failure, or non-2xx status, and the failure is fatal to the
cycle: the caller catches it, displays the error message, and
`st.stop()` halts the cycle before rendering any card, table or
chart. -/
theorem quote_fetch_failure_fatal :
    fetch_market_data MarketResult.netError = .error () ∧
    fetch_market_data MarketResult.httpError = .error () ∧
    fetch_market_data MarketResult.badJson = .error () ∧
    ∀ (cfg : RefreshConfig) (net : NetworkOracle),
      fetch_market_data net.market = .error () →
      (runCycle cfg net).errorMsg = some "Gagal mengambil data dari API" ∧
      (runCycle cfg net).cards = [] ∧
      (runCycle cfg net).table = none ∧
      (runCycle cfg net).chartSection = [] := by
  refine ⟨rfl, rfl, rfl, ?_⟩
  intro cfg net h
  simp [runCycle, h]

/-- Witness for C4: a cycle whose snapshot request hits a network
error shows the error message. -/
theorem quote_fetch_failure_fatal_witness :
    (runCycle ⟨["bitcoin"], "usd", true, 1⟩
        ⟨PingResult.netError, MarketResult.netError,
          fun _ => ChartResult.netError⟩).errorMsg =
      some "Gagal mengambil data dari API" :=
  (quote_fetch_failure_fatal.2.2.2 ⟨["bitcoin"], "usd", true, 1⟩
    ⟨PingResult.netError, MarketResult.netError, fun _ => ChartResult.netError⟩
    rfl).1

/-- C7: a successful quote fetch with zero rows shows the empty-result
warning and skips all rendering for the cycle: no card, no table, no
chart. -/
theorem empty_result_blocks_cycle :
    ∀ (cfg : RefreshConfig) (net : NetworkOracle),
      fetch_market_data net.market = .ok [] →
      (runCycle cfg net).warningMsg =
        some "Tidak ada data ditemukan. Periksa ID coin dan koneksi internet." ∧
      (runCycle cfg net).errorMsg = none ∧
      (runCycle cfg net).cards = [] ∧
      (runCycle cfg net).table = none ∧
      (runCycle cfg net).chartSection = [] := by
  intro cfg net h
  simp [runCycle, h]

/-- Witness for C7: requesting only an unknown id yields zero rows and
the empty-result warning. -/
theorem empty_result_blocks_cycle_witness :
    (runCycle ⟨["doesnotexist"], "usd", true, 1⟩
        ⟨PingResult.ok 1, MarketResult.ok [],
          fun _ => ChartResult.netError⟩).warningMsg =
      some "Tidak ada data ditemukan. Periksa ID coin dan koneksi internet." :=
  (empty_result_blocks_cycle ⟨["doesnotexist"], "usd", true, 1⟩
    ⟨PingResult.ok 1, MarketResult.ok [], fun _ => ChartResult.netError⟩
    rfl).1

/-- C10: a successful history fetch with an empty price list is
presented exactly like a history-fetch failure: whenever the fetched
series is empty — for any reason — the per-coin warning panel is shown
and the chart is skipped; a chart panel is produced iff the series is
non-empty, and the chart section is one panel per requested coin in
input order. -/
theorem empty_history_uniform_presentation :
    (∀ (coin : String) (res res' : ChartResult),
      fetch_market_chart res = [] → fetch_market_chart res' = [] →
      chartPanelFor coin res = chartPanelFor coin res') ∧
    (∀ (coin : String) (res : ChartResult),
      chartPanelFor coin res = ChartPanel.warning coin ↔
        fetch_market_chart res = []) ∧
    (∀ (coin : String) (res : ChartResult) (data : List PricePoint),
      chartPanelFor coin res = ChartPanel.chart coin data → data ≠ []) ∧
    (∀ (cfg : RefreshConfig) (net : NetworkOracle) (rows : List AssetQuote),
      fetch_market_data net.market = .ok rows → rows ≠ [] →
      cfg.show_chart = true →
      (runCycle cfg net).chartSection =
        cfg.coins.map fun coin => chartPanelFor coin (net.chart coin)) := by
  refine ⟨?_, ?_, ?_, ?_⟩
  · intro coin res res' h h'
    simp [chartPanelFor, h, h']
  · intro coin res
    cases hE : (fetch_market_chart res).isEmpty with
    | true => simp [chartPanelFor, hE, List.isEmpty_iff.mp hE]
    | false =>
      simp only [chartPanelFor, hE, if_false, Bool.false_eq_true]
      constructor
      · intro h
        exact absurd h (by simp)
      · intro h
        exact absurd (List.isEmpty_iff.mpr h) (by simp [hE])
  · intro coin res data h
    cases hE : (fetch_market_chart res).isEmpty with
    | true => simp [chartPanelFor, hE] at h
    | false =>
      simp only [chartPanelFor, hE, if_false, Bool.false_eq_true,
        ChartPanel.chart.injEq] at h
      intro hd
      rw [h.2, hd] at hE
      simp at hE
  · intro cfg net rows h hrows hshow
    have hne : rows.isEmpty = false := by
      simpa [List.isEmpty_iff] using hrows
    simp [runCycle, h, hne, hshow, chartLoop]

/-- Witness for C10: a network error and a successful-but-empty price
list produce the same panel. -/
theorem empty_history_uniform_presentation_witness :
    chartPanelFor "bitcoin" ChartResult.netError =
      chartPanelFor "bitcoin" (ChartResult.ok []) :=
  empty_history_uniform_presentation.1 "bitcoin" _ _ rfl rfl

/-- A freshly stored cache entry is the one a lookup of its key
finds. -/
theorem lookupEntry_cons_self {κ α : Type} [DecidableEq κ] (k : κ) (t : Nat)
    (v : α) (rest : List (CacheEntry κ α)) :
    lookupEntry ⟨⟨k, t, v⟩ :: rest⟩ k = some (t, v) := by
  simp [lookupEntry, List.find?_cons]

/-- A call that ran the underlying function stores its result under
its key at the call time. -/
theorem cachedCall_miss_state {κ α : Type} [DecidableEq κ] (ttl : Nat)
    (f : κ → α) (now : Nat) (k : κ) (st : CacheState κ α)
    (h : (cachedCall ttl f now k st).networkCalled = true) :
    (cachedCall ttl f now k st).state = ⟨⟨k, now, f k⟩ :: st.entries⟩ := by
  unfold cachedCall at h ⊢
  cases hl : lookupEntry st k with
  | none => rfl
  | some tv =>
    obtain ⟨t, v⟩ := tv
    rw [hl] at h
    by_cases hc : now - t < ttl
    · simp [hc] at h
    · simp [hc]

/-- C3: each Fetcher operation is memoized keyed on its full argument
tuple, with per-operation TTLs 60s (ping), 30s (quotes), 120s
(history): after a `fetch_quotes` call that issued a network request,
a second call with the identical `(currency, asset_ids)` tuple within
the 30s TTL window issues no network request, and a call at or past
TTL expiry does issue one. -/
theorem quotes_cache_ttl (net : QuotesKey → MarketResult) (k : QuotesKey)
    (st : CacheState QuotesKey (Except Unit (List AssetQuote))) (t1 t2 : Nat)
    (h1 : (fetch_quotes_cached net t1 k st).networkCalled = true) :
    ping_api_ttl = 60 ∧ fetch_market_data_ttl = 30 ∧
    fetch_market_chart_ttl = 120 ∧
    (t2 - t1 < fetch_market_data_ttl →
      (fetch_quotes_cached net t2 k
        (fetch_quotes_cached net t1 k st).state).networkCalled = false) ∧
    (fetch_market_data_ttl ≤ t2 - t1 →
      (fetch_quotes_cached net t2 k
        (fetch_quotes_cached net t1 k st).state).networkCalled = true) := by
  simp only [fetch_quotes_cached] at h1 ⊢
  rw [cachedCall_miss_state _ _ _ _ _ h1]
  refine ⟨rfl, rfl, rfl, ?_, ?_⟩
  · intro ht
    unfold cachedCall
    rw [lookupEntry_cons_self]
    simp [ht]
  · intro ht
    unfold cachedCall
    rw [lookupEntry_cons_self]
    simp [Nat.not_lt.mpr ht]

/-- Witness for C3: with the tuple `("usd", ["bitcoin", "ethereum"])`
stored at second 0, the call at second 10 is served from cache and the
call at second 30 refetches. -/
theorem quotes_cache_ttl_witness :
    (fetch_quotes_cached (fun _ => MarketResult.ok []) 10
        ("usd", ["bitcoin", "ethereum"])
        (fetch_quotes_cached (fun _ => MarketResult.ok []) 0
          ("usd", ["bitcoin", "ethereum"]) ⟨[]⟩).state).networkCalled = false ∧
    (fetch_quotes_cached (fun _ => MarketResult.ok []) 30
        ("usd", ["bitcoin", "ethereum"])
        (fetch_quotes_cached (fun _ => MarketResult.ok []) 0
          ("usd", ["bitcoin", "ethereum"]) ⟨[]⟩).state).networkCalled = true :=
  ⟨(quotes_cache_ttl (fun _ => MarketResult.ok [])
      ("usd", ["bitcoin", "ethereum"]) ⟨[]⟩ 0 10 (by decide)).2.2.2.1 (by decide),
   (quotes_cache_ttl (fun _ => MarketResult.ok [])
      ("usd", ["bitcoin", "ethereum"]) ⟨[]⟩ 0 30 (by decide)).2.2.2.2 (by decide)⟩

/-- A concrete snapshot row: price 1234.5, 1h change 5.2, missing 24h
change, 7d change -3.1, market cap 1234567. -/
def sampleQuote : AssetQuote :=
  { symbol := "btc"
    name := "Bitcoin"
    current_price := mkRat 2469 2
    price_change_percentage_1h_in_currency := some (mkRat 26 5)
    price_change_percentage_24h_in_currency := none
    price_change_percentage_7d_in_currency := some (mkRat (-31) 10)
    high_24h := mkRat 1300 1
    low_24h := mkRat 1200 1
    ath := mkRat 69000 1
    market_cap := mkRat 1234567 1
    total_volume := mkRat 98765 1
    market_cap_rank := 1
    fully_diluted_valuation := some (mkRat 1234567 1)
    last_updated := "2026-10-12T00:00:00.000Z" }

/-- Applying any of the table's format specs to the NaN cell produces
the literal string `"nan"`, as Python float formatting does. -/
theorem renderCell_nan (spec : Option (Bool × Nat)) :
    renderCell spec Cell.nan = "nan" := by
  cases spec with
  | none => rfl
  | some p =>
    obtain ⟨s, d⟩ := p
    rfl

/-- C8: the column projection selects exactly 14 named fields and the
renaming is a fixed deterministic mapping parameterized only by the
quote currency, which appears uppercased in the price-column label;
the resulting table has 14 display columns in every row. -/
theorem table_projection_14_columns :
    columns_display.length = 14 ∧
    (∀ (vs : String) (rows : List AssetQuote),
      (buildTable vs rows).headers.length = 14 ∧
      ∀ r ∈ (buildTable vs rows).rows, r.length = 14) ∧
    (∀ vs : String,
      renameColumn vs "current_price" = "Price (" ++ strUpper vs ++ ")") ∧
    (∀ (vs vs' : String), ∀ c ∈ columns_display, c ≠ "current_price" →
      renameColumn vs c = renameColumn vs' c) := by
  refine ⟨rfl, ?_, fun vs => rfl, ?_⟩
  · intro vs rows
    refine ⟨by simp [buildTable, columns_display], ?_⟩
    intro r hr
    simp only [buildTable, List.mem_map] at hr
    obtain ⟨q, hq, rfl⟩ := hr
    simp [columns_display]
  · intro vs vs' c hc hne
    fin_cases hc <;> first | rfl | exact absurd rfl hne

/-- Witness for C8: a one-row table in USD has 14 headers, and a
non-price column is renamed independently of the currency. -/
theorem table_projection_14_columns_witness :
    (buildTable "usd" [sampleQuote]).headers.length = 14 ∧
    renameColumn "usd" "high_24h" = renameColumn "idr" "high_24h" :=
  ⟨(table_projection_14_columns.2.1 "usd" [sampleQuote]).1,
   table_projection_14_columns.2.2.2 "usd" "idr" "high_24h"
     (by simp [columns_display]) (by decide)⟩

/-- C5: the display-format dictionary assigns 4 decimal places with
thousands separators to price, 24h high/low and all-time high, 2
decimal places to the percentage deltas, and integer precision with
thousands separators to market cap, volume and FDV; formatting the
price 1234.5 yields `"1,234.5000"` and formatting the market cap
1234567 yields `"1,234,567"`. -/
theorem numeric_display_formatting :
    (∀ vs : String,
      format_dict vs (renameColumn vs "current_price") = some (true, 4)) ∧
    (∀ vs ∈ currencies,
      format_dict vs (renameColumn vs "high_24h") = some (true, 4) ∧
      format_dict vs (renameColumn vs "low_24h") = some (true, 4) ∧
      format_dict vs (renameColumn vs "ath") = some (true, 4) ∧
      format_dict vs
        (renameColumn vs "price_change_percentage_1h_in_currency") =
        some (false, 2) ∧
      format_dict vs
        (renameColumn vs "price_change_percentage_24h_in_currency") =
        some (false, 2) ∧
      format_dict vs
        (renameColumn vs "price_change_percentage_7d_in_currency") =
        some (false, 2) ∧
      format_dict vs (renameColumn vs "market_cap") = some (true, 0) ∧
      format_dict vs (renameColumn vs "total_volume") = some (true, 0) ∧
      format_dict vs (renameColumn vs "fully_diluted_valuation") =
        some (true, 0)) ∧
    (mkRat 2469 2 : ℚ) = 2469 / 2 ∧
    (mkRat 1234567 1 : ℚ) = 1234567 ∧
    formatFixed true 4 (mkRat 2469 2) = "1,234.5000" ∧
    formatFixed true 0 (mkRat 1234567 1) = "1,234,567" ∧
    displayCell "usd" sampleQuote "current_price" = "1,234.5000" ∧
    displayCell "usd" sampleQuote "market_cap" = "1,234,567" := by
  refine ⟨?_, ?_,
    by norm_num [Rat.mkRat_eq_divInt, Rat.divInt_eq_div],
    by norm_num [Rat.mkRat_eq_divInt, Rat.divInt_eq_div],
    by decide, by decide, by decide, by decide⟩
  · intro vs
    simp [format_dict, renameColumn]
  · intro vs hvs
    fin_cases hvs <;>
      exact ⟨rfl, rfl, rfl, rfl, rfl, rfl, rfl, rfl, rfl⟩

/-- Witness for C5 at the USD currency choice. -/
theorem numeric_display_formatting_witness :
    format_dict "usd" (renameColumn "usd" "current_price") = some (true, 4) ∧
    format_dict "usd" (renameColumn "usd" "market_cap") = some (true, 0) :=
  ⟨numeric_display_formatting.1 "usd",
   (numeric_display_formatting.2.1 "usd" (by simp [currencies])).2.2.2.2.2.2.1⟩

/-- C6 counterexample: a row whose 24h percentage change is missing
renders the literal string `"nan"` — not an em-dash — in the 24H %
column of the detail table (the format spec `"{:.2f}"` is applied to
NaN, and `Styler.format` is given no `na_rep`), refuting "rendered as
an em-dash in the display output … never as a literal NaN
rendering". -/
theorem missing_pct_renders_nan_counterexample :
    sampleQuote.price_change_percentage_24h_in_currency = none ∧
    displayCell "usd" sampleQuote
      "price_change_percentage_24h_in_currency" = "nan" ∧
    ((buildTable "usd" [sampleQuote]).rows.getD 0 []).getD 4 "" = "nan" ∧
    "nan" ≠ "—" :=
  ⟨rfl, by decide, by decide, by decide⟩

/-- C6 as amended: a missing 24h percentage change is treated as "no
data", never an error — in the summary cards it is rendered as an
em-dash, while in the detail table the format spec is applied to the
missing value and renders the literal string `"nan"`. -/
theorem missing_pct_rendering_amended :
    ∀ (vs : String) (q : AssetQuote),
      q.price_change_percentage_24h_in_currency = none →
      (mkCard vs q).delta = "—" ∧
      displayCell vs q "price_change_percentage_24h_in_currency" = "nan" := by
  intro vs q hq
  refine ⟨by simp [mkCard, hq], ?_⟩
  simp [displayCell, quoteField, hq, renderCell_nan]

/-- Witness for the amended C6 at the sample row. -/
theorem missing_pct_rendering_amended_witness :
    (mkCard "usd" sampleQuote).delta = "—" ∧
    displayCell "usd" sampleQuote
      "price_change_percentage_24h_in_currency" = "nan" :=
  missing_pct_rendering_amended "usd" sampleQuote rfl

end CoinGecko






